import Mathlib

/-!
Verification of the github-preview dispatch service against its specification.

The development shallowly embeds the Python sources:
* `src/statestore/firestore_client.py` — the transactional claim/state store.
  The Firestore collection is modelled as an association list from document id
  to record; each transactional function becomes a pure function from store to
  store, with the wall clock (`datetime.utcnow()`) and the `HOSTNAME`
  environment variable passed as explicit parameters.
* `src/githubapp/auth.py` — webhook signature verification.  The stdlib
  HMAC-SHA256 hex digest is passed as an explicit function parameter since it
  is library code, not code of this repository.
* `src/githubapp/webhook_parser.py` — event parsing and installation-id
  extraction.  Python strings are Lean `String`s, with the handful of Python
  string operations (`strip`, `split`, `startswith`, `in`, `lower`, `int()`)
  re-implemented over the underlying character lists.  Absent JSON keys are
  `Option.none`; Python truthiness tests (`if not x:`) are modelled explicitly,
  so `0` and `""` count as falsy exactly as in the source.
* `src/githubapp/main.py` — the webhook handler.  Network calls (GitHub API
  lookups, token exchange, PR fetch) are modelled by oracle parameters that
  carry the observable result of each call; the handler itself is the faithful
  pure control-flow skeleton of `github_webhook`, with response messages
  abbreviated to a response-kind tag plus the exact comment texts it posts.
-/

/-! ### Python string primitives -/

/-- Characters stripped by Python `str.strip()` (ASCII whitespace). -/
def isPySpace (c : Char) : Bool :=
  c = ' ' || c = '\t' || c = '\n' || c = '\r' || c = '\x0b' || c = '\x0c'

/-- `str.strip()` on a character list: drop whitespace from both ends. -/
def stripChars (l : List Char) : List Char :=
  ((l.dropWhile isPySpace).reverse.dropWhile isPySpace).reverse

/-- Python `str.strip()`. -/
def pyStrip (s : String) : String := ⟨stripChars s.data⟩

/-- Does `s` start with the pattern list `pre`?  (Python `str.startswith`.) -/
def startsWithList : List Char → List Char → Bool
  | _, [] => true
  | [], _ :: _ => false
  | c :: s, d :: pre => if c = d then startsWithList s pre else false

/-- Python `s.startswith(pre)`. -/
def pyStartswith (s pre : String) : Bool := startsWithList s.data pre.data

/-- Substring test on character lists (Python `sub in s`). -/
def containsList (sub : List Char) : List Char → Bool
  | [] => startsWithList [] sub
  | c :: t => startsWithList (c :: t) sub || containsList sub t

/-- Python `sub in s`. -/
def containsSub (s sub : String) : Bool := containsList sub.data s.data

/-- Python `str.split('\n')` on a character list.  The empty string yields
one empty field, matching Python. -/
def splitNl : List Char → List (List Char)
  | [] => [[]]
  | c :: t =>
    if c = '\n' then [] :: splitNl t
    else
      match splitNl t with
      | [] => [[c]]
      | h :: r => (c :: h) :: r

/-- Python `s.split('\n')`. -/
def pySplitNl (s : String) : List String := (splitNl s.data).map String.mk

/-- Python `str.lower()` (ASCII case folding suffices for the logins used). -/
def lowerStr (s : String) : String := ⟨s.data.map Char.toLower⟩

/-- Numeric value of a digit list. -/
def digitsVal (l : List Char) : Nat :=
  l.foldl (fun a c => 10 * a + (c.toNat - 48)) 0

/-- Core of Python `int(str)` after whitespace stripping: an optional sign
followed by at least one decimal digit.  (Digit-group underscores, accepted by
CPython, are not modelled; no input in this development uses them.) -/
def pyIntCore : List Char → Option Int
  | [] => none
  | '+' :: rest =>
    if rest ≠ [] ∧ rest.all Char.isDigit then some (digitsVal rest) else none
  | '-' :: rest =>
    if rest ≠ [] ∧ rest.all Char.isDigit then some (-(digitsVal rest : Int)) else none
  | l =>
    if l.all Char.isDigit then some (digitsVal l) else none

/-- Python `int(s)`, returning `none` where CPython raises `ValueError`. -/
def pyInt? (s : String) : Option Int := pyIntCore (stripChars s.data)

/-- Python `x or d` for an optional string `x` (both `None` and `""` fall
through to the default, as in `claimed_by or os.getenv("HOSTNAME", "unknown")`). -/
def pyOrStr (o : Option String) (d : String) : String :=
  match o with
  | some s => if s = "" then d else s
  | none => d

/-- Python truthiness of an optional integer: `None` and `0` are falsy. -/
def falsyI : Option Int → Bool
  | none => true
  | some n => n == 0

/-- Python truthiness of an optional string: present and non-empty. -/
def truthyS : Option String → Bool
  | none => false
  | some s => !(s == "")

/-! ### Statestore (`src/statestore/firestore_client.py`) -/

def STATUS_PENDING : String := "pending"
def STATUS_CLAIMED : String := "claimed"
def STATUS_DEPLOYED : String := "deployed"
def STATUS_FAILED : String := "failed"

/-- One document of the `deployments` collection.  Fields written by
`claim_deployment` are always present; fields only attached later by
`update_deployment` are optional.  Timestamps are abstract ticks. -/
structure Record where
  idempotency_key : String
  status : String
  repo : String
  pr_number : Int
  commit_sha : String
  installation_id : Int
  comment_id : Option Int
  claimed_by : Option String
  preview_url : Option String
  release_name : Option String
  «namespace» : Option String
  created_at : Nat
  updated_at : Nat
deriving DecidableEq

/-- The `deployments` collection: document id to record, ids unique. -/
abbrev Store := List (String × Record)

/-- Document lookup by id. -/
def Store.get : Store → String → Option Record
  | [], _ => none
  | p :: t, k => if p.1 = k then some p.2 else Store.get t k

/-- Document write by id (replace if present, insert otherwise). -/
def Store.set : Store → String → Record → Store
  | [], k, r => [(k, r)]
  | p :: t, k, r => if p.1 = k then (k, r) :: t else p :: Store.set t k r

/-- `claim_deployment`: the atomic claim transaction.  `now` models
`datetime.utcnow()` and `hostname` models `os.getenv("HOSTNAME", "unknown")`.
Returns the transaction result and the store after the transaction. -/
def claim_deployment (now : Nat) (hostname : String) (idempotency_key : String)
    (repo : String) (pr_number : Int) (commit_sha : String) (installation_id : Int)
    (comment_id : Option Int) (claimed_by : Option String) (db : Store) :
    Bool × Store :=
  match Store.get db idempotency_key with
  | some data =>
    if data.status = STATUS_CLAIMED ∨ data.status = STATUS_DEPLOYED then
      (false, db)
    else
      (true, Store.set db idempotency_key
        { data with
          status := STATUS_CLAIMED
          updated_at := now
          claimed_by := some (pyOrStr claimed_by hostname) })
  | none =>
    (true, Store.set db idempotency_key
      { idempotency_key := idempotency_key
        status := STATUS_CLAIMED
        repo := repo
        pr_number := pr_number
        commit_sha := commit_sha
        installation_id := installation_id
        comment_id := comment_id
        claimed_by := some (pyOrStr claimed_by hostname)
        preview_url := none
        release_name := none
        «namespace» := none
        created_at := now
        updated_at := now })

/-- `update_deployment`: merge status, timestamp and any supplied result
metadata into an existing document.  `none` models the `NotFound` error that
Firestore `update` raises when the document does not exist. -/
def update_deployment (now : Nat) (idempotency_key : String) (status : String)
    (preview_url : Option String) (release_name : Option String)
    (ns : Option String) (db : Store) : Option Store :=
  match Store.get db idempotency_key with
  | none => none
  | some data =>
    some (Store.set db idempotency_key
      { data with
        status := status
        updated_at := now
        preview_url := (match preview_url with | some u => some u | none => data.preview_url)
        release_name := (match release_name with | some r => some r | none => data.release_name)
        «namespace» := (match ns with | some n => some n | none => data.«namespace») })

/-- `release_claim`: transition back to `pending` and clear the claimant.
`none` again models the `NotFound` error on a missing document. -/
def release_claim (now : Nat) (idempotency_key : String) (db : Store) :
    Option Store :=
  match Store.get db idempotency_key with
  | none => none
  | some data =>
    some (Store.set db idempotency_key
      { data with
        status := STATUS_PENDING
        updated_at := now
        claimed_by := none })

/-- `get_deployment`: read a document; the document id is written into the
`idempotency_key` field of the returned dictionary, as in the source. -/
def get_deployment (idempotency_key : String) (db : Store) : Option Record :=
  match Store.get db idempotency_key with
  | none => none
  | some data => some { data with idempotency_key := idempotency_key }

/-- A key is claimable when no record exists or the stored status is neither
`claimed` nor `deployed` (the two statuses `claim_deployment` refuses). -/
def claimable : Option Record → Bool
  | none => true
  | some r => !(r.status == STATUS_CLAIMED || r.status == STATUS_DEPLOYED)

/-! ### Signature verification (`src/githubapp/auth.py`) -/

/-- `hmac.compare_digest`: constant-time string equality (the timing aspect is
not observable in the embedding; the result is plain equality). -/
def compare_digest (a b : String) : Bool := a == b

/-- `verify_webhook_signature`.  `digestHex secret body` stands for
`hmac.new(secret.encode("utf-8"), msg=body, digestmod=hashlib.sha256).hexdigest()`,
the stdlib HMAC-SHA256 lowercase hex digest, passed in as a parameter because
it is library code external to this repository.  The raw body is a byte list. -/
def verify_webhook_signature (digestHex : String → List Nat → String)
    (payload_body : List Nat) (secret_token : String)
    (signature : Option String) : Bool :=
  match signature with
  | none => false
  | some s =>
    if s = "" then false
    else if pyStartswith s "sha256=" = false then false
    else compare_digest ("sha256=" ++ digestHex secret_token payload_body) s

/-! ### Webhook parsing (`src/githubapp/webhook_parser.py`) -/

/-- The command dictionary returned by `extract_command`. -/
structure Command where
  command : String
  raw : String
deriving DecidableEq

/-- The fields of the webhook JSON payload the parser reads.  Each field is
`none` when the corresponding key path is absent from the JSON. -/
structure Payload where
  action : Option String
  issue_html_url : Option String
  issue_number : Option Int
  comment_body : Option String
  repo_owner_login : Option String
  repo_name : Option String
  repository_id : Option Int
  installation_id : Option Int
deriving DecidableEq

/-- The dictionary returned by `parse_issue_comment_event` on success. -/
structure ParsedEvent where
  pr_number : Int
  repo_owner : String
  repo_name : String
  repository_id : Option Int
  comment_body : String
  command : Command
deriving DecidableEq

namespace WebhookParser

/-- `WebhookParser.extract_command`: first stripped line (of the stripped
body, split on newlines) that starts with `/preview`. -/
def extract_command (comment_body : String) : Option Command :=
  if comment_body = "" then none
  else
    match (pySplitNl (pyStrip comment_body)).find?
        (fun line => pyStartswith (pyStrip line) "/preview") with
    | some line => some { command := "preview", raw := pyStrip line }
    | none => none

/-- `WebhookParser.parse_issue_comment_event`.  Mirrors the source checks in
order: action, pull-request marker (`"pull" in html_url`), PR number
(`if not pr_number:`, so `0` is rejected like a missing number), repository
owner/name (`if not all([...])`, so empty strings are rejected), and finally
the `/preview` command. -/
def parse_issue_comment_event (p : Payload) : Option ParsedEvent :=
  if p.action ≠ some "created" then none
  else if containsSub (p.issue_html_url.getD "") "pull" = false then none
  else
    match p.issue_number with
    | none => none
    | some n =>
      if n == 0 then none
      else
        match p.repo_owner_login, p.repo_name with
        | some o, some m =>
          if o == "" || m == "" then none
          else
            match extract_command (p.comment_body.getD "") with
            | none => none
            | some cmd =>
              some { pr_number := n
                     repo_owner := o
                     repo_name := m
                     repository_id := p.repository_id
                     comment_body := p.comment_body.getD ""
                     command := cmd }
        | _, _ => none

/-- Header part of installation-id extraction: parse the header as an
integer; reject it when the repository id is truthy and equal to it. -/
def header_installation_id (header_value : Option String)
    (repository_id : Option Int) : Option Int :=
  match header_value with
  | none => none
  | some s =>
    if s = "" then none
    else
      match pyInt? s with
      | none => none
      | some potential_id =>
        match repository_id with
        | some rid =>
          if !(rid == 0) && potential_id == rid then none else some potential_id
        | none => some potential_id

/-- `WebhookParser.extract_installation_id`: header first; when the header
result is falsy (absent, unparsable, rejected, or `0`), fall back to the
payload's `installation.id` and return it unconditionally. -/
def extract_installation_id (p : Payload) (header_value : Option String)
    (repository_id : Option Int) : Option Int :=
  let installation_id := header_installation_id header_value repository_id
  if falsyI installation_id then p.installation_id else installation_id

end WebhookParser

/-! ### Installation resolution and the webhook handler (`src/githubapp/main.py`) -/

/-- Result of one GitHub API lookup: HTTP 200 with an optional `id` field,
HTTP 404, or any other failure status. -/
inductive ApiResp where
  | ok (id : Option Int)
  | notFound
  | err
deriving DecidableEq

/-- One element of the `/app/installations` listing. -/
structure Installation where
  id : Option Int
  account_login : String
deriving DecidableEq

/-- Observable results of the three API calls of the installation lookup
block: the user-installation lookup, the org-installation lookup (consulted
only on a 404 from the former) and the list-all-installations call (`none`
models a non-200 response). -/
structure ApiOracles where
  user : ApiResp
  org : ApiResp
  list : Option (List Installation)
deriving DecidableEq

/-- Net effect of the API fallback block of `github_webhook` on
`installation_id`, given its value `prior` on entry (falsy on entry, since the
block only runs then).  Mirrors the source exactly: direct user lookup, org
lookup on 404, then the list fallback with single/matched/first selection,
each later step guarded by `if not installation_id:`. -/
def apiLookupNet (a : ApiOracles) (repo_owner : String) (prior : Option Int) :
    Option Int :=
  let m1 : Option Int :=
    match a.user with
    | .ok i => i
    | .notFound => (match a.org with | .ok i => i | _ => prior)
    | .err => prior
  if falsyI m1 then
    match a.list with
    | none => m1
    | some [] => m1
    | some [i] => i.id
    | some (i :: j :: rest) =>
      let insts := i :: j :: rest
      let matched := (insts.find?
        (fun x => lowerStr x.account_login = lowerStr repo_owner)).bind Installation.id
      if falsyI matched then
        match insts.head? with
        | some x => x.id
        | none => m1
      else matched
  else m1

/-- The resolution chain of `github_webhook` up to (but excluding) the final
`if not installation_id:` validation: header, then payload `installation.id`,
then — when the value is still falsy and the owner login is truthy — the API
block.  `api = none` models an exception inside the lookup block (caught by the
source, leaving `installation_id` unchanged). -/
def installation_id_chain (p : Payload) (hdr : Option String)
    (api : Option ApiOracles) : Option Int :=
  let fromHeader := WebhookParser.header_installation_id hdr p.repository_id
  let afterPayload := if falsyI fromHeader then p.installation_id else fromHeader
  if falsyI afterPayload && truthyS p.repo_owner_login then
    match api with
    | some a => apiLookupNet a (p.repo_owner_login.getD "") afterPayload
    | none => afterPayload
  else afterPayload

/-- The handler's complete installation resolution: the chain followed by the
`if not installation_id:` validation, after which a still-falsy value means
"could not determine installation ID". -/
def resolve_installation_id (p : Payload) (hdr : Option String)
    (api : Option ApiOracles) : Option Int :=
  let afterApi := installation_id_chain p hdr api
  if falsyI afterApi then none else afterApi

/-- The early-return outcomes of `github_webhook` (every one an HTTP 200
JSON response; `ack` is the final `{"message": "waaaa"}` return reached after
posting the acknowledgement comment). -/
inductive RespKind where
  | eventIgnored
  | actionIgnored
  | notPR
  | noPrNumber
  | noInstallation
  | missingRepoInfo
  | noCommand
  | tokenFailed
  | prFetchFailed
  | shaMissing
  | ack
deriving DecidableEq

/-- Observable result of the token-exchange plus PR-fetch block: non-201 token
response, non-200 PR response, a PR body with an optional head sha, or an
exception (which the source catches and then falls through). -/
inductive GhOracle where
  | exn
  | tokenFail
  | prFail
  | prOk (sha : Option String)
deriving DecidableEq

def ackComment : String := "🚀 Deployment requested! Setting up preview environment..."

def prFailComment : String := "❌ Failed to retrieve PR information."

def shaFailComment : String := "❌ Could not determine commit SHA for deployment."

/-- Observable outcome of one `github_webhook` invocation (after signature
verification and JSON parsing): HTTP status, response kind, the PR comments
posted, the deployment tasks enqueued, and the statestore afterwards. -/
structure HandlerResult where
  status : Nat
  kind : RespKind
  comments : List String
  enqueued : List String
  db : Store
deriving DecidableEq

/-- The decision core of `github_webhook` in `src/githubapp/main.py`, from the
event-type check onward (signature verification and JSON parsing precede it
and are modelled separately).  The statestore `db` is threaded through to make
any claim or enqueue effect observable; the source performs neither, so the
store is returned untouched on every path. -/
def github_webhook (event : Option String) (p : Payload) (hdr : Option String)
    (api : Option ApiOracles) (gh : GhOracle) (db : Store) : HandlerResult :=
  if event ≠ some "issue_comment" then ⟨200, .eventIgnored, [], [], db⟩
  else
    let iid := installation_id_chain p hdr api
    if p.action ≠ some "created" then ⟨200, .actionIgnored, [], [], db⟩
    else if containsSub (p.issue_html_url.getD "") "pull" = false then
      ⟨200, .notPR, [], [], db⟩
    else if falsyI p.issue_number then ⟨200, .noPrNumber, [], [], db⟩
    else if falsyI iid then ⟨200, .noInstallation, [], [], db⟩
    else if !(truthyS p.repo_owner_login && truthyS p.repo_name) then
      ⟨200, .missingRepoInfo, [], [], db⟩
    else
      match WebhookParser.extract_command (p.comment_body.getD "") with
      | none => ⟨200, .noCommand, [], [], db⟩
      | some _ =>
        match gh with
        | .tokenFail => ⟨200, .tokenFailed, [], [], db⟩
        | .prFail => ⟨200, .prFetchFailed, [prFailComment], [], db⟩
        | .prOk none => ⟨200, .shaMissing, [shaFailComment], [], db⟩
        | .prOk (some sha) =>
          if sha = "" then ⟨200, .shaMissing, [shaFailComment], [], db⟩
          else ⟨200, .ack, [ackComment], [], db⟩
        | .exn => ⟨200, .ack, [ackComment], [], db⟩

/-! ### Concrete inputs used by counterexamples and witnesses -/

/-- A record already in the terminal-looking state `failed`. -/
def recFailedC3 : Record :=
  { idempotency_key := "octo/site#5:abc"
    status := STATUS_FAILED
    repo := "octo/site"
    pr_number := 5
    commit_sha := "abc"
    installation_id := 42
    comment_id := none
    claimed_by := none
    preview_url := none
    release_name := none
    «namespace» := none
    created_at := 0
    updated_at := 0 }

/-- A claimed record about to be updated to `deployed`. -/
def recClaimedC8 : Record :=
  { idempotency_key := "octo/site#5:abc"
    status := STATUS_CLAIMED
    repo := "octo/site"
    pr_number := 5
    commit_sha := "abc"
    installation_id := 42
    comment_id := some 9
    claimed_by := some "w1"
    preview_url := none
    release_name := none
    «namespace» := none
    created_at := 0
    updated_at := 0 }

/-- A record already deployed for the key computed by scenario C9. -/
def recDeployedC9 : Record :=
  { idempotency_key := "octo/site#5:abc"
    status := STATUS_DEPLOYED
    repo := "octo/site"
    pr_number := 5
    commit_sha := "abc"
    installation_id := 42
    comment_id := some 9
    claimed_by := some "w1"
    preview_url := some "https://preview.example/5"
    release_name := none
    «namespace» := none
    created_at := 0
    updated_at := 0 }

/-- A payload whose issue number is literally `0`: every other parse
precondition holds. -/
def payloadPrZero : Payload :=
  { action := some "created"
    issue_html_url := some "https://github.com/octo/site/pull/0"
    issue_number := some 0
    comment_body := some "/preview"
    repo_owner_login := some "octo"
    repo_name := some "site"
    repository_id := some 1
    installation_id := some 7 }

/-- A payload carrying `installation.id = 7`, used to show that a header of
`"0"` is skipped in favour of the payload value. -/
def payloadInst7 : Payload :=
  { action := some "created"
    issue_html_url := some "https://github.com/octo/site/pull/5"
    issue_number := some 5
    comment_body := some "/preview"
    repo_owner_login := some "octo"
    repo_name := some "site"
    repository_id := some 5
    installation_id := some 7 }

/-- A payload carrying `installation.id = 0`, the value `extract_installation_id`
passes through unchanged. -/
def payloadInstZero : Payload :=
  { action := some "created"
    issue_html_url := some "https://github.com/octo/site/pull/5"
    issue_number := some 5
    comment_body := some "/preview"
    repo_owner_login := some "octo"
    repo_name := some "site"
    repository_id := some 5
    installation_id := some 0 }

/-- The qualifying `/preview` payload of scenario C9. -/
def payloadC9 : Payload :=
  { action := some "created"
    issue_html_url := some "https://github.com/octo/site/pull/5"
    issue_number := some 5
    comment_body := some "please review\n/preview\nthanks"
    repo_owner_login := some "octo"
    repo_name := some "site"
    repository_id := some 1
    installation_id := none }

/-- A fixed stand-in digest function used only to instantiate witnesses. -/
def digestConst : String → List Nat → String := fun _ _ => "d1"

/-! ### Store lemmas -/

theorem Store.get_set_self (db : Store) (k : String) (r : Record) :
    Store.get (Store.set db k r) k = some r := by
  induction db with
  | nil => simp [Store.set, Store.get]
  | cons p t ih =>
    by_cases h : p.1 = k
    · simp [Store.set, Store.get, h]
    · simp [Store.set, Store.get, h, ih]

theorem Store.get_set_ne (db : Store) (k k2 : String) (r : Record) (h : k ≠ k2) :
    Store.get (Store.set db k r) k2 = Store.get db k2 := by
  induction db with
  | nil => simp [Store.set, Store.get, h]
  | cons p t ih =>
    by_cases hp : p.1 = k
    · simp [Store.set, Store.get, hp, h]
    · simp [Store.set, Store.get, hp, ih]

theorem statusPending_not_terminal :
    ¬(STATUS_PENDING = STATUS_CLAIMED ∨ STATUS_PENDING = STATUS_DEPLOYED) := by decide

theorem statusFailed_not_terminal :
    ¬(STATUS_FAILED = STATUS_CLAIMED ∨ STATUS_FAILED = STATUS_DEPLOYED) := by decide

/-- After any claim transaction that returned true, the stored status under the
key is `claimed`. -/
theorem claim_true_claimed_status (now : Nat) (hostname k repo : String) (pr : Int)
    (sha : String) (inst : Int) (cid : Option Int) (cb : Option String) (db : Store)
    (h : (claim_deployment now hostname k repo pr sha inst cid cb db).1 = true) :
    (Store.get (claim_deployment now hostname k repo pr sha inst cid cb db).2 k).map
      Record.status = some STATUS_CLAIMED := by
  cases hg : Store.get db k with
  | none => simp [claim_deployment, hg, Store.get_set_self]
  | some data =>
    by_cases hs : data.status = STATUS_CLAIMED ∨ data.status = STATUS_DEPLOYED
    · simp [claim_deployment, hg, hs] at h
    · simp [claim_deployment, hg, hs, Store.get_set_self]

/-! ### Claim C1 -/

/-- Claim C1: two claim transactions for the same idempotency key, serialized
in either order by the store's transactional primitive (the only interleavings
an atomic transaction admits), never both return true; and from any claimable
state (no record, or a record neither claimed nor deployed) the first returns
true, every other returns false, and the winner holds the claimed status. -/
theorem claim_deployment_concurrent_exclusive
    (db : Store) (k : String)
    (n1 : Nat) (h1 repo1 : String) (pr1 : Int) (sha1 : String) (inst1 : Int)
    (cid1 : Option Int) (cb1 : Option String)
    (n2 : Nat) (h2 repo2 : String) (pr2 : Int) (sha2 : String) (inst2 : Int)
    (cid2 : Option Int) (cb2 : Option String) :
    (((claim_deployment n1 h1 k repo1 pr1 sha1 inst1 cid1 cb1 db).1 &&
      (claim_deployment n2 h2 k repo2 pr2 sha2 inst2 cid2 cb2
        (claim_deployment n1 h1 k repo1 pr1 sha1 inst1 cid1 cb1 db).2).1) = false)
    ∧ (claimable (Store.get db k) = true →
        (claim_deployment n1 h1 k repo1 pr1 sha1 inst1 cid1 cb1 db).1 = true
        ∧ (claim_deployment n2 h2 k repo2 pr2 sha2 inst2 cid2 cb2
            (claim_deployment n1 h1 k repo1 pr1 sha1 inst1 cid1 cb1 db).2).1 = false
        ∧ (Store.get (claim_deployment n1 h1 k repo1 pr1 sha1 inst1 cid1 cb1 db).2 k).map
            Record.status = some STATUS_CLAIMED) := by
  cases hg : Store.get db k with
  | none =>
    refine ⟨?_, fun _ => ⟨?_, ?_, ?_⟩⟩ <;>
      simp [claim_deployment, hg, Store.get_set_self]
  | some data =>
    by_cases hs : data.status = STATUS_CLAIMED ∨ data.status = STATUS_DEPLOYED
    · refine ⟨?_, ?_⟩
      · simp [claim_deployment, hg, hs]
      · intro hc
        exfalso
        rcases hs with hs | hs <;> simp [claimable, hg, hs] at hc
    · refine ⟨?_, fun _ => ⟨?_, ?_, ?_⟩⟩ <;>
        simp [claim_deployment, hg, hs, Store.get_set_self]

/-- Witness for C1 at a fresh key in an empty store. -/
theorem claim_deployment_concurrent_exclusive_witness :
    (claim_deployment 1 "a" "octo/site#5:abc" "octo/site" 5 "abc" 42 none none []).1 = true
    ∧ (claim_deployment 2 "b" "octo/site#5:abc" "octo/site" 5 "abc" 42 none none
        (claim_deployment 1 "a" "octo/site#5:abc" "octo/site" 5 "abc" 42 none none []).2).1
        = false := by
  have h := (claim_deployment_concurrent_exclusive [] "octo/site#5:abc"
    1 "a" "octo/site" 5 "abc" 42 none none 2 "b" "octo/site" 5 "abc" 42 none none).2
    (by decide)
  exact ⟨h.1, h.2.1⟩

/-! ### Claim C2 -/

/-- Claim C2: the claim transaction, in each of the cases the spec names.
If no record exists it creates the record with status claimed (carrying the
supplied attributes) and returns true; if the stored status is pending it
transitions that record to claimed and returns true; if the stored status is
claimed or deployed it makes no write at all and returns false.  In the two
writing cases every other key is untouched. -/
theorem claim_deployment_transition_spec
    (now : Nat) (host k repo : String) (pr : Int) (sha : String) (inst : Int)
    (cid : Option Int) (cb : Option String) (db : Store) :
    (Store.get db k = none →
      (claim_deployment now host k repo pr sha inst cid cb db).1 = true
      ∧ Store.get (claim_deployment now host k repo pr sha inst cid cb db).2 k
          = some { idempotency_key := k, status := STATUS_CLAIMED, repo := repo,
                   pr_number := pr, commit_sha := sha, installation_id := inst,
                   comment_id := cid, claimed_by := some (pyOrStr cb host),
                   preview_url := none, release_name := none, «namespace» := none,
                   created_at := now, updated_at := now }
      ∧ ∀ k2, k ≠ k2 →
          Store.get (claim_deployment now host k repo pr sha inst cid cb db).2 k2
            = Store.get db k2)
    ∧ (∀ data, Store.get db k = some data → data.status = STATUS_PENDING →
        (claim_deployment now host k repo pr sha inst cid cb db).1 = true
        ∧ Store.get (claim_deployment now host k repo pr sha inst cid cb db).2 k
            = some { data with
                     status := STATUS_CLAIMED
                     updated_at := now
                     claimed_by := some (pyOrStr cb host) }
        ∧ ∀ k2, k ≠ k2 →
            Store.get (claim_deployment now host k repo pr sha inst cid cb db).2 k2
              = Store.get db k2)
    ∧ (∀ data, Store.get db k = some data →
        data.status = STATUS_CLAIMED ∨ data.status = STATUS_DEPLOYED →
        claim_deployment now host k repo pr sha inst cid cb db = (false, db)) := by
  refine ⟨?_, ?_, ?_⟩
  · intro hg
    refine ⟨?_, ?_, ?_⟩
    · simp [claim_deployment, hg]
    · simp [claim_deployment, hg, Store.get_set_self]
    · intro k2 hk2
      simp [claim_deployment, hg, Store.get_set_ne db k k2 _ hk2]
  · intro data hg hs
    have hcond : ¬(data.status = STATUS_CLAIMED ∨ data.status = STATUS_DEPLOYED) := by
      rw [hs]; decide
    refine ⟨?_, ?_, ?_⟩
    · simp [claim_deployment, hg, hcond]
    · simp [claim_deployment, hg, hcond, Store.get_set_self]
    · intro k2 hk2
      simp [claim_deployment, hg, hcond, Store.get_set_ne db k k2 _ hk2]
  · intro data hg hs
    simp [claim_deployment, hg, hs]

/-- Witness for C2: first claim on an absent key creates the claimed record. -/
theorem claim_deployment_transition_spec_witness :
    (claim_deployment 1 "host" "octo/site#5:abc" "octo/site" 5 "abc" 42 none none []).1 = true
    ∧ Store.get
        (claim_deployment 1 "host" "octo/site#5:abc" "octo/site" 5 "abc" 42 none none []).2
        "octo/site#5:abc"
        = some { idempotency_key := "octo/site#5:abc", status := STATUS_CLAIMED,
                 repo := "octo/site", pr_number := 5, commit_sha := "abc",
                 installation_id := 42, comment_id := none,
                 claimed_by := some (pyOrStr none "host"), preview_url := none,
                 release_name := none, «namespace» := none, created_at := 1,
                 updated_at := 1 } := by
  have h := (claim_deployment_transition_spec 1 "host" "octo/site#5:abc" "octo/site"
    5 "abc" 42 none none []).1 rfl
  exact ⟨h.1, h.2.1⟩

/-! ### Claim C3 -/

/-- Counterexample to C3 as stated: a record whose status is "failed" is
re-claimed successfully — `claim_deployment` returns true on it (and rewrites
it), not false, because the source only refuses "claimed" and "deployed". -/
theorem claim_failed_reclaim_counterexample :
    Store.get [("octo/site#5:abc", recFailedC3)] "octo/site#5:abc" = some recFailedC3
    ∧ recFailedC3.status = STATUS_FAILED
    ∧ (claim_deployment 1 "h" "octo/site#5:abc" "octo/site" 5 "abc" 42 none none
        [("octo/site#5:abc", recFailedC3)]).1 = true := by decide

/-- Claim C3 amended: only DEPLOYED (and CLAIMED) are terminal with respect to
claim — a deployed record makes the claim return false with no write — while a
FAILED record is re-claimable: claim returns true and moves it to claimed. -/
theorem claim_deployment_terminal_spec
    (now : Nat) (host k repo : String) (pr : Int) (sha : String) (inst : Int)
    (cid : Option Int) (cb : Option String) (db : Store) :
    (∀ data, Store.get db k = some data → data.status = STATUS_DEPLOYED →
      claim_deployment now host k repo pr sha inst cid cb db = (false, db))
    ∧ (∀ data, Store.get db k = some data → data.status = STATUS_FAILED →
      (claim_deployment now host k repo pr sha inst cid cb db).1 = true
      ∧ Store.get (claim_deployment now host k repo pr sha inst cid cb db).2 k
          = some { data with
                   status := STATUS_CLAIMED
                   updated_at := now
                   claimed_by := some (pyOrStr cb host) }) := by
  refine ⟨?_, ?_⟩
  · intro data hg hs
    simp [claim_deployment, hg, Or.inr hs]
  · intro data hg hs
    have hcond : ¬(data.status = STATUS_CLAIMED ∨ data.status = STATUS_DEPLOYED) := by
      rw [hs]; decide
    constructor
    · simp [claim_deployment, hg, hcond]
    · simp [claim_deployment, hg, hcond, Store.get_set_self]

/-- Witness for the amended C3 at concrete deployed and failed records. -/
theorem claim_deployment_terminal_spec_witness :
    claim_deployment 1 "h" "octo/site#5:abc" "octo/site" 5 "abc" 42 none none
        [("octo/site#5:abc", recDeployedC9)]
      = (false, [("octo/site#5:abc", recDeployedC9)])
    ∧ (claim_deployment 1 "h" "octo/site#5:abc" "octo/site" 5 "abc" 42 none none
        [("octo/site#5:abc", recFailedC3)]).1 = true := by
  refine ⟨?_, ?_⟩
  · exact (claim_deployment_terminal_spec 1 "h" "octo/site#5:abc" "octo/site" 5 "abc" 42
      none none [("octo/site#5:abc", recDeployedC9)]).1 recDeployedC9 rfl rfl
  · exact ((claim_deployment_terminal_spec 1 "h" "octo/site#5:abc" "octo/site" 5 "abc" 42
      none none [("octo/site#5:abc", recFailedC3)]).2 recFailedC3 rfl rfl).1

/-! ### Claim C7 -/

/-- Claim C7: after a successful claim, `release_claim` moves the record back
to pending, and a subsequent claim for the same key succeeds again. -/
theorem release_then_reclaim_spec
    (db : Store) (k : String)
    (n1 : Nat) (h1 repo1 : String) (pr1 : Int) (sha1 : String) (inst1 : Int)
    (cid1 : Option Int) (cb1 : Option String)
    (n2 n3 : Nat) (h3 repo3 : String) (pr3 : Int) (sha3 : String) (inst3 : Int)
    (cid3 : Option Int) (cb3 : Option String)
    (hclaim : (claim_deployment n1 h1 k repo1 pr1 sha1 inst1 cid1 cb1 db).1 = true) :
    ∃ db2,
      release_claim n2 k (claim_deployment n1 h1 k repo1 pr1 sha1 inst1 cid1 cb1 db).2
        = some db2
      ∧ (Store.get db2 k).map Record.status = some STATUS_PENDING
      ∧ (claim_deployment n3 h3 k repo3 pr3 sha3 inst3 cid3 cb3 db2).1 = true := by
  obtain ⟨r1, hr1, hst⟩ : ∃ r1,
      Store.get (claim_deployment n1 h1 k repo1 pr1 sha1 inst1 cid1 cb1 db).2 k = some r1
      ∧ r1.status = STATUS_CLAIMED := by
    have h := claim_true_claimed_status n1 h1 k repo1 pr1 sha1 inst1 cid1 cb1 db hclaim
    cases hg : Store.get (claim_deployment n1 h1 k repo1 pr1 sha1 inst1 cid1 cb1 db).2 k with
    | none => rw [hg] at h; simp at h
    | some r => rw [hg] at h; exact ⟨r, rfl, by simpa using h⟩
  refine ⟨Store.set (claim_deployment n1 h1 k repo1 pr1 sha1 inst1 cid1 cb1 db).2 k
    { r1 with status := STATUS_PENDING, updated_at := n2, claimed_by := none }, ?_, ?_, ?_⟩
  · simp [release_claim, hr1]
  · simp [Store.get_set_self]
  · simp [claim_deployment, Store.get_set_self, statusPending_not_terminal]

/-- Witness for C7 starting from an empty store. -/
theorem release_then_reclaim_spec_witness :
    ∃ db2,
      release_claim 2 "octo/site#5:abc"
          (claim_deployment 1 "a" "octo/site#5:abc" "octo/site" 5 "abc" 42 none none []).2
        = some db2
      ∧ (Store.get db2 "octo/site#5:abc").map Record.status = some STATUS_PENDING
      ∧ (claim_deployment 3 "b" "octo/site#5:abc" "octo/site" 5 "abc" 42 none none db2).1
          = true := by
  exact release_then_reclaim_spec [] "octo/site#5:abc" 1 "a" "octo/site" 5 "abc" 42 none none
    2 3 "b" "octo/site" 5 "abc" 42 none none (by decide)

/-! ### Claim C8 -/

/-- Counterexample to C8 as stated: after `update(key, "deployed",
preview_url=U)` the record read back differs from the old record in a field
other than status and preview_url — `updated_at` is rewritten to the update
time (0 before, 1 after), so not all other fields are unchanged. -/
theorem update_updated_at_counterexample :
    recClaimedC8.updated_at = 0
    ∧ (update_deployment 1 "octo/site#5:abc" STATUS_DEPLOYED (some "https://u.example")
        none none [("octo/site#5:abc", recClaimedC8)]).map
        (fun db2 => (get_deployment "octo/site#5:abc" db2).map Record.updated_at)
      = some (some 1) := by decide

/-- Claim C8 amended: updating an existing record to deployed with a preview
URL makes a subsequent get return the record with status "deployed",
preview_url = U, the `updated_at` timestamp rewritten to the update time, and
every remaining field unchanged; no other key is touched. -/
theorem update_then_get_spec
    (db : Store) (k : String) (data : Record) (U : String) (now : Nat)
    (hg : Store.get db k = some data) :
    update_deployment now k STATUS_DEPLOYED (some U) none none db
      = some (Store.set db k { data with status := STATUS_DEPLOYED, preview_url := some U, updated_at := now })
    ∧ get_deployment k
        (Store.set db k { data with status := STATUS_DEPLOYED, preview_url := some U, updated_at := now })
      = some { data with status := STATUS_DEPLOYED, preview_url := some U, updated_at := now, idempotency_key := k }
    ∧ ∀ k2, k ≠ k2 →
        Store.get
          (Store.set db k { data with status := STATUS_DEPLOYED, preview_url := some U, updated_at := now }) k2
        = Store.get db k2 := by
  refine ⟨?_, ?_, ?_⟩
  · simp [update_deployment, hg]
  · simp [get_deployment, Store.get_set_self]
  · intro k2 hk2
    exact Store.get_set_ne db k k2 _ hk2

/-- Witness for the amended C8 at a concrete claimed record. -/
theorem update_then_get_spec_witness :
    get_deployment "octo/site#5:abc"
        (Store.set [("octo/site#5:abc", recClaimedC8)] "octo/site#5:abc"
          { recClaimedC8 with status := STATUS_DEPLOYED, preview_url := some "https://u.example", updated_at := 1 })
      = some { recClaimedC8 with status := STATUS_DEPLOYED, preview_url := some "https://u.example", updated_at := 1, idempotency_key := "octo/site#5:abc" } := by
  exact (update_then_get_spec [("octo/site#5:abc", recClaimedC8)] "octo/site#5:abc"
    recClaimedC8 "https://u.example" 1 rfl).2.1

/-! ### Claim C4 -/

theorem startsWithList_append (pre rest : List Char) :
    startsWithList (pre ++ rest) pre = true := by
  induction pre with
  | nil => simp [startsWithList]
  | cons c t ih => simp [startsWithList, ih]

theorem sha_append_ne_empty (t : String) : ("sha256=" ++ t) ≠ "" := by
  intro h
  have hd : ("sha256=" ++ t).data = ([] : List Char) := by rw [h]
  rw [String.data_append] at hd
  simp at hd

theorem sha_append_startswith (t : String) :
    pyStartswith ("sha256=" ++ t) "sha256=" = true := by
  unfold pyStartswith
  rw [String.data_append]
  exact startsWithList_append _ _

theorem sha_append_inj (x y : String) (h : "sha256=" ++ x = "sha256=" ++ y) : x = y := by
  have hd := congrArg String.data h
  rw [String.data_append, String.data_append] at hd
  exact String.ext (List.append_cancel_left hd)

/-- Verification succeeds exactly when the header equals the expected
`"sha256="`-prefixed digest. -/
theorem verify_eq_true_iff (d : String → List Nat → String) (body : List Nat)
    (secret : String) (s : String) :
    verify_webhook_signature d body secret (some s) = true
      ↔ s = "sha256=" ++ d secret body := by
  constructor
  · intro h
    simp only [verify_webhook_signature, compare_digest] at h
    split_ifs at h with h0 h1
    exact (eq_of_beq h).symm
  · rintro rfl
    simp [verify_webhook_signature, compare_digest,
      sha_append_ne_empty (d secret body), sha_append_startswith (d secret body)]

/-- Claim C4: for every body, secret and (abstract) HMAC-SHA256 hex digest
function, `verify_webhook_signature` returns true iff the header equals
`"sha256="` followed by the digest of the body keyed by the secret; it is
false on an absent header and on any header not starting with `"sha256="`;
any header other than the matching one fails; and whenever a change of body
or secret changes the digest, the previously matching header fails too. -/
theorem verify_signature_spec (d : String → List Nat → String) (body : List Nat)
    (secret : String) :
    (∀ s, verify_webhook_signature d body secret (some s) = true
        ↔ s = "sha256=" ++ d secret body)
    ∧ verify_webhook_signature d body secret none = false
    ∧ (∀ s, pyStartswith s "sha256=" = false →
        verify_webhook_signature d body secret (some s) = false)
    ∧ (∀ s s2, verify_webhook_signature d body secret (some s) = true → s2 ≠ s →
        verify_webhook_signature d body secret (some s2) = false)
    ∧ (∀ body2, d secret body2 ≠ d secret body →
        verify_webhook_signature d body2 secret (some ("sha256=" ++ d secret body)) = false)
    ∧ (∀ secret2, d secret2 body ≠ d secret body →
        verify_webhook_signature d body secret2 (some ("sha256=" ++ d secret body)) = false) := by
  refine ⟨verify_eq_true_iff d body secret, rfl, ?_, ?_, ?_, ?_⟩
  · intro s hsw
    simp [verify_webhook_signature, hsw]
  · intro s s2 hv hne
    cases hb : verify_webhook_signature d body secret (some s2) with
    | false => rfl
    | true =>
      exfalso
      have h2 := (verify_eq_true_iff d body secret s2).mp hb
      have h1 := (verify_eq_true_iff d body secret s).mp hv
      exact hne (h2.trans h1.symm)
  · intro body2 hdiff
    cases hb : verify_webhook_signature d body2 secret
        (some ("sha256=" ++ d secret body)) with
    | false => rfl
    | true =>
      exfalso
      have h2 := (verify_eq_true_iff d body2 secret _).mp hb
      exact hdiff (sha_append_inj _ _ h2).symm
  · intro secret2 hdiff
    cases hb : verify_webhook_signature d body secret2
        (some ("sha256=" ++ d secret body)) with
    | false => rfl
    | true =>
      exfalso
      have h2 := (verify_eq_true_iff d body secret2 _).mp hb
      exact hdiff (sha_append_inj _ _ h2).symm

/-- Witness for C4 at the constant digest function and concrete inputs. -/
theorem verify_signature_spec_witness :
    verify_webhook_signature digestConst [1, 2] "sec" (some ("sha256=" ++ digestConst "sec" [1, 2])) = true
    ∧ verify_webhook_signature digestConst [1, 2] "sec" none = false
    ∧ verify_webhook_signature digestConst [1, 2] "sec" (some "md5=zz") = false
    ∧ verify_webhook_signature digestConst [1, 2] "sec" (some "sha256=zz") = false := by
  have h := verify_signature_spec digestConst [1, 2] "sec"
  refine ⟨(h.1 _).mpr rfl, h.2.1, h.2.2.1 "md5=zz" (by decide), ?_⟩
  exact h.2.2.2.1 ("sha256=" ++ digestConst "sec" [1, 2]) "sha256=zz"
    ((h.1 _).mpr rfl) (by decide)

/-! ### Claim C5 -/

theorem find?_append_first {α : Type} (p : α → Bool) (pre : List α) (a : α)
    (post : List α) (hpre : ∀ x ∈ pre, p x = false) (ha : p a = true) :
    (pre ++ a :: post).find? p = some a := by
  induction pre with
  | nil =>
    rw [List.nil_append]
    exact List.find?_cons_of_pos _ ha
  | cons x t ih =>
    have hx := hpre x (List.mem_cons_self x t)
    rw [List.cons_append, List.find?_cons_of_neg _ (by simp [hx])]
    exact ih (fun y hy => hpre y (List.mem_cons_of_mem x hy))

/-- Counterexample to C5 as stated: a payload whose issue number is present
but equal to 0 satisfies every acceptance condition the claim names (action
"created", pull marker, owner, name, a `/preview` line), yet the parser
returns none — the source's `if not pr_number:` treats the number 0 like a
missing one. -/
theorem parse_pr_number_zero_counterexample :
    payloadPrZero.action = some "created"
    ∧ containsSub (payloadPrZero.issue_html_url.getD "") "pull" = true
    ∧ payloadPrZero.issue_number = some 0
    ∧ payloadPrZero.repo_owner_login = some "octo"
    ∧ payloadPrZero.repo_name = some "site"
    ∧ WebhookParser.extract_command (payloadPrZero.comment_body.getD "")
        = some { command := "preview", raw := "/preview" }
    ∧ WebhookParser.parse_issue_comment_event payloadPrZero = none := by decide

/-- Claim C5 amended: the parser returns none whenever the action is not
"created", the issue html_url carries no "pull" marker, the PR number is
missing or zero, the owner login or repository name is missing or empty, or no
line of the body (split on newlines after stripping, each line stripped)
starts with `/preview`; otherwise it returns the event structure whose command
comes from the first such line in source order, later matches ignored. -/
theorem parse_issue_comment_spec (p : Payload) :
    (p.action ≠ some "created" → WebhookParser.parse_issue_comment_event p = none)
    ∧ (containsSub (p.issue_html_url.getD "") "pull" = false →
        WebhookParser.parse_issue_comment_event p = none)
    ∧ (p.issue_number = none ∨ p.issue_number = some 0 →
        WebhookParser.parse_issue_comment_event p = none)
    ∧ (truthyS p.repo_owner_login = false ∨ truthyS p.repo_name = false →
        WebhookParser.parse_issue_comment_event p = none)
    ∧ ((∀ line ∈ pySplitNl (pyStrip (p.comment_body.getD "")),
          pyStartswith (pyStrip line) "/preview" = false) →
        WebhookParser.parse_issue_comment_event p = none)
    ∧ (∀ n o m pre line post,
        p.action = some "created" →
        containsSub (p.issue_html_url.getD "") "pull" = true →
        p.issue_number = some n → n ≠ 0 →
        p.repo_owner_login = some o → o ≠ "" →
        p.repo_name = some m → m ≠ "" →
        pySplitNl (pyStrip (p.comment_body.getD "")) = pre ++ line :: post →
        (∀ x ∈ pre, pyStartswith (pyStrip x) "/preview" = false) →
        pyStartswith (pyStrip line) "/preview" = true →
        WebhookParser.parse_issue_comment_event p
          = some { pr_number := n, repo_owner := o, repo_name := m,
                   repository_id := p.repository_id,
                   comment_body := p.comment_body.getD "",
                   command := { command := "preview", raw := pyStrip line } }) := by
  refine ⟨?_, ?_, ?_, ?_, ?_, ?_⟩
  · intro h
    simp [WebhookParser.parse_issue_comment_event, h]
  · intro h
    by_cases h1 : p.action ≠ some "created"
    · simp [WebhookParser.parse_issue_comment_event, h1]
    · simp [WebhookParser.parse_issue_comment_event, h1, h]
  · intro h
    by_cases h1 : p.action ≠ some "created"
    · simp [WebhookParser.parse_issue_comment_event, h1]
    by_cases h2 : containsSub (p.issue_html_url.getD "") "pull" = false
    · simp [WebhookParser.parse_issue_comment_event, h1, h2]
    rcases h with h | h <;> simp [WebhookParser.parse_issue_comment_event, h1, h2, h]
  · intro h
    by_cases h1 : p.action ≠ some "created"
    · simp [WebhookParser.parse_issue_comment_event, h1]
    by_cases h2 : containsSub (p.issue_html_url.getD "") "pull" = false
    · simp [WebhookParser.parse_issue_comment_event, h1, h2]
    cases hn : p.issue_number with
    | none => simp [WebhookParser.parse_issue_comment_event, h1, h2, hn]
    | some n =>
      by_cases hz : (n == 0) = true
      · simp [WebhookParser.parse_issue_comment_event, h1, h2, hn, hz]
      rcases h with h | h
      · cases ho : p.repo_owner_login with
        | none => simp [WebhookParser.parse_issue_comment_event, h1, h2, hn, hz, ho]
        | some o =>
          rw [ho] at h
          simp only [truthyS, Bool.not_eq_false'] at h
          cases hm : p.repo_name with
          | none => simp [WebhookParser.parse_issue_comment_event, h1, h2, hn, hz, ho, hm]
          | some m =>
            simp [WebhookParser.parse_issue_comment_event, h1, h2, hn, hz, ho, hm, h]
      · cases hm : p.repo_name with
        | none =>
          cases ho : p.repo_owner_login <;>
            simp [WebhookParser.parse_issue_comment_event, h1, h2, hn, hz, ho, hm]
        | some m =>
          rw [hm] at h
          simp only [truthyS, Bool.not_eq_false'] at h
          cases ho : p.repo_owner_login with
          | none => simp [WebhookParser.parse_issue_comment_event, h1, h2, hn, hz, ho, hm]
          | some o =>
            simp [WebhookParser.parse_issue_comment_event, h1, h2, hn, hz, ho, hm, h]
  · intro h
    have hex : WebhookParser.extract_command (p.comment_body.getD "") = none := by
      unfold WebhookParser.extract_command
      by_cases hb : p.comment_body.getD "" = ""
      · simp [hb]
      · rw [if_neg hb, List.find?_eq_none.mpr (fun x hx => by simp [h x hx])]
    by_cases h1 : p.action ≠ some "created"
    · simp [WebhookParser.parse_issue_comment_event, h1]
    by_cases h2 : containsSub (p.issue_html_url.getD "") "pull" = false
    · simp [WebhookParser.parse_issue_comment_event, h1, h2]
    cases hn : p.issue_number with
    | none => simp [WebhookParser.parse_issue_comment_event, h1, h2, hn]
    | some n =>
      by_cases hz : (n == 0) = true
      · simp [WebhookParser.parse_issue_comment_event, h1, h2, hn, hz]
      cases ho : p.repo_owner_login with
      | none => simp [WebhookParser.parse_issue_comment_event, h1, h2, hn, hz, ho]
      | some o =>
        cases hm : p.repo_name with
        | none => simp [WebhookParser.parse_issue_comment_event, h1, h2, hn, hz, ho, hm]
        | some m =>
          by_cases he : (o == "" || m == "") = true
          · simp [WebhookParser.parse_issue_comment_event, h1, h2, hn, hz, ho, hm, he]
          · simp [WebhookParser.parse_issue_comment_event, h1, h2, hn, hz, ho, hm, he, hex]
  · intro n o m pre line post h1 h2 h3 h4 h5 h6 h7 h8 h9 h10 h11
    have hz : (n == 0) = false := by simp [h4]
    have hoe : (o == "") = false := by simp [h6]
    have hme : (m == "") = false := by simp [h8]
    have hbody : ¬(p.comment_body.getD "" = "") := by
      intro hb
      rw [hb] at h9
      have hsingle : ([""] : List String) = pre ++ line :: post := by
        have : pySplitNl (pyStrip "") = [""] := by decide
        rw [this] at h9
        exact h9
      cases pre with
      | nil =>
        simp only [List.nil_append, List.cons.injEq] at hsingle
        rw [← hsingle.1] at h11
        exact absurd h11 (by decide)
      | cons x t => simp at hsingle
    have hfind : (pySplitNl (pyStrip (p.comment_body.getD ""))).find?
        (fun l2 => pyStartswith (pyStrip l2) "/preview") = some line := by
      rw [h9]
      exact find?_append_first _ pre line post h10 h11
    simp [WebhookParser.parse_issue_comment_event, WebhookParser.extract_command,
      h1, h2, h3, hz, h5, h7, hoe, hme, hbody, hfind]

/-- Witness for the amended C5 at the scenario payload with the `/preview`
command on the second of three lines. -/
theorem parse_issue_comment_spec_witness :
    WebhookParser.parse_issue_comment_event payloadC9
      = some { pr_number := 5, repo_owner := "octo", repo_name := "site",
               repository_id := some 1,
               comment_body := "please review\n/preview\nthanks",
               command := { command := "preview", raw := "/preview" } } := by
  exact (parse_issue_comment_spec payloadC9).2.2.2.2.2 5 "octo" "site"
    ["please review"] "/preview" ["thanks"] rfl (by decide) rfl (by decide) rfl (by decide)
    rfl (by decide) (by decide) (by decide) (by decide)

/-! ### Claim C6 -/

/-- Counterexample to C6 as stated: the header "0" parses to the integer 0,
which differs from the repository id 5, yet the resolved installation id is
the payload's 7, not 0 — a header parsing to zero is treated as absent
because the fallback test is Python truthiness, not a None check. -/
theorem installation_header_zero_counterexample :
    pyInt? "0" = some 0
    ∧ payloadInst7.repository_id = some 5
    ∧ (0 : Int) ≠ 5
    ∧ payloadInst7.installation_id = some 7
    ∧ WebhookParser.extract_installation_id payloadInst7 (some "0") (some 5) = some 7 := by
  decide

theorem pyInt_empty_none : pyInt? "" = none := rfl

/-- Claim C6 amended: a header parsing to an integer equal to a truthy
(nonzero) repository id is ignored and resolution proceeds to the payload's
installation.id; a header parsing to a nonzero integer different from the
repository id (or with the repository id absent or zero) resolves to that
integer; and a header parsing to zero is treated as absent, resolution again
proceeding to the payload field. -/
theorem installation_header_resolution_spec (p : Payload) (s : String) :
    (∀ rid, pyInt? s = some rid → rid ≠ 0 →
      WebhookParser.extract_installation_id p (some s) (some rid) = p.installation_id)
    ∧ (∀ n rid2, pyInt? s = some n → n ≠ 0 →
        (rid2 = none ∨ rid2 = some 0 ∨ ∀ r, rid2 = some r → r ≠ n) →
        WebhookParser.extract_installation_id p (some s) rid2 = some n)
    ∧ (pyInt? s = some 0 →
        ∀ rid2, WebhookParser.extract_installation_id p (some s) rid2
          = p.installation_id) := by
  have hsne : ∀ v : Int, pyInt? s = some v → ¬(s = "") := by
    intro v hp he
    rw [he, pyInt_empty_none] at hp
    cases hp
  refine ⟨?_, ?_, ?_⟩
  · intro rid hp hr
    have hs := hsne rid hp
    simp [WebhookParser.extract_installation_id, WebhookParser.header_installation_id,
      falsyI, hs, hp, hr]
  · intro n rid2 hp hn hd
    have hs := hsne n hp
    rcases hd with rfl | rfl | hne
    · simp [WebhookParser.extract_installation_id, WebhookParser.header_installation_id,
        falsyI, hs, hp, hn]
    · simp [WebhookParser.extract_installation_id, WebhookParser.header_installation_id,
        falsyI, hs, hp, hn]
    · cases hr2 : rid2 with
      | none =>
        simp [WebhookParser.extract_installation_id, WebhookParser.header_installation_id,
          falsyI, hs, hp, hn]
      | some r =>
        have hrn : ¬(n = r) := fun hh => hne r hr2 (by rw [hh])
        simp [WebhookParser.extract_installation_id, WebhookParser.header_installation_id,
          falsyI, hs, hp, hn, hrn]
  · intro hp rid2
    have hs := hsne 0 hp
    cases rid2 with
    | none =>
      simp [WebhookParser.extract_installation_id, WebhookParser.header_installation_id,
        falsyI, hs, hp]
    | some r =>
      by_cases hr0 : r = 0
      · simp [WebhookParser.extract_installation_id, WebhookParser.header_installation_id,
          falsyI, hs, hp, hr0]
      · have h0r : ¬((0 : Int) = r) := fun hh => hr0 hh.symm
        simp [WebhookParser.extract_installation_id, WebhookParser.header_installation_id,
          falsyI, hs, hp, hr0, h0r]

/-- Witness for the amended C6: header equal to the repo id falls through to
the payload; a distinct nonzero header wins; a zero header falls through. -/
theorem installation_header_resolution_spec_witness :
    WebhookParser.extract_installation_id payloadInst7 (some "5") (some 5) = some 7
    ∧ WebhookParser.extract_installation_id payloadInst7 (some "42") (some 5) = some 42
    ∧ WebhookParser.extract_installation_id payloadInst7 (some "0") (some 5) = some 7 := by
  refine ⟨?_, ?_, ?_⟩
  · exact ((installation_header_resolution_spec payloadInst7 "5").1 5 (by decide)
      (by decide)).trans rfl
  · exact (installation_header_resolution_spec payloadInst7 "42").2.1 42 (some 5)
      (by decide) (by decide)
      (Or.inr (Or.inr (fun r hr => by cases hr; decide)))
  · exact ((installation_header_resolution_spec payloadInst7 "0").2.2 (by decide)
      (some 5)).trans rfl

/-! ### Claim C10 -/

/-- Counterexample to C10 as stated: with no header and a payload whose
installation.id is 0, `extract_installation_id` returns 0 — the zero payload
value is passed straight through, because the `if installation_id:` after the
payload fallback in the source only guards a log statement. -/
theorem extract_installation_zero_counterexample :
    payloadInstZero.installation_id = some 0
    ∧ WebhookParser.extract_installation_id payloadInstZero none none = some 0 := by decide

/-- Claim C10 amended: a header parsing to 0 never stops the chain — the
parser falls through to the payload field; the handler's full resolution never
yields 0, since its final truthiness validation treats 0 as undetermined; the
repository-id rejection check is skipped whenever the repository id is absent
or 0 (a nonzero header integer is then always accepted); but
`extract_installation_id` itself returns the payload's installation.id
unchanged even when that value is 0. -/
theorem installation_zero_fallback_spec (p : Payload) :
    (∀ rid2, WebhookParser.extract_installation_id p (some "0") rid2 = p.installation_id)
    ∧ (∀ hdr api, resolve_installation_id p hdr api ≠ some 0)
    ∧ (∀ s n, pyInt? s = some n → n ≠ 0 →
        WebhookParser.extract_installation_id p (some s) none = some n
        ∧ WebhookParser.extract_installation_id p (some s) (some 0) = some n)
    ∧ (p.installation_id = some 0 →
        ∀ rid2, WebhookParser.extract_installation_id p none rid2 = some 0) := by
  refine ⟨?_, ?_, ?_, ?_⟩
  · intro rid2
    exact (installation_header_resolution_spec p "0").2.2 (by decide) rid2
  · intro hdr api h
    have hr : resolve_installation_id p hdr api
        = if falsyI (installation_id_chain p hdr api) = true then none
          else installation_id_chain p hdr api := rfl
    by_cases hf : falsyI (installation_id_chain p hdr api) = true
    · rw [hr, if_pos hf] at h
      exact Option.noConfusion h
    · rw [hr, if_neg hf] at h
      rw [h] at hf
      exact hf rfl
  · intro s n hp hn
    constructor
    · exact (installation_header_resolution_spec p s).2.1 n none hp hn (Or.inl rfl)
    · exact (installation_header_resolution_spec p s).2.1 n (some 0) hp hn
        (Or.inr (Or.inl rfl))
  · intro hp0 rid2
    simp [WebhookParser.extract_installation_id, WebhookParser.header_installation_id,
      falsyI, hp0]

/-- Witness for the amended C10 at concrete payloads. -/
theorem installation_zero_fallback_spec_witness :
    WebhookParser.extract_installation_id payloadInstZero (some "0") (some 5)
      = payloadInstZero.installation_id
    ∧ resolve_installation_id payloadInstZero none none ≠ some 0
    ∧ WebhookParser.extract_installation_id payloadInstZero (some "7") none = some 7
    ∧ WebhookParser.extract_installation_id payloadInstZero none (some 5) = some 0 := by
  have h := installation_zero_fallback_spec payloadInstZero
  exact ⟨h.1 (some 5), h.2.1 none none, (h.2.2.1 "7" 7 (by decide) (by decide)).1,
    h.2.2.2 rfl (some 5)⟩

/-! ### Claim C9 -/

/-- Claim C9 (code bug): for the qualifying `/preview` delivery of scenario B,
whose computed idempotency key already holds status DEPLOYED in the store, the
claim transaction would indeed return false — but `github_webhook` in
`src/githubapp/main.py` never consults the statestore at all: it posts the
acknowledgement comment, enqueues nothing, leaves the store untouched and
returns the 200 "waaaa" response, instead of the silent duplicate-suppression
path (no enqueue, no new comment) the claim describes. -/
theorem github_webhook_no_claim_code_bug :
    (claim_deployment 1 "h" "octo/site#5:abc" "octo/site" 5 "abc" 42 none none
        [("octo/site#5:abc", recDeployedC9)]).1 = false
    ∧ github_webhook (some "issue_comment") payloadC9 (some "42") none (.prOk (some "abc"))
        [("octo/site#5:abc", recDeployedC9)]
      = { status := 200, kind := .ack, comments := [ackComment], enqueued := [],
          db := [("octo/site#5:abc", recDeployedC9)] } := by decide
